import Mathlib

/-!
Verification of the sc-controller input pipeline against its
natural-language specification.

The development shallowly embeds the relevant parts of
`scc/mapper.py`, `scc/device_monitor.py` and `scc/drivers/usb.py`:
pure computations become Lean functions, stateful methods become
explicit state-passing functions, Python exceptions become explicit
outcome values, and Python ints are `Nat`/`Int`.
-/

namespace SCC

/-! ## Constants

Bit masks used by `Mapper.input`.  Modelled from the spec: the file
`scc/constants.py` defining `SCButtons`, `STICKTILT` and `HapticPos` is
not part of the sources under verification; the masks below are the
single-bit values the mapper code relies on (each button is bound to
one exact bit, and `LPAD`, `LPADTOUCH`, `RPADTOUCH`, `CPADTOUCH`,
`STICKTILT` and `STICKPRESS` are pairwise distinct bits). -/

def LPAD : Nat := 2 ^ 25
def RPAD : Nat := 2 ^ 26
def LPADTOUCH : Nat := 2 ^ 27
def RPADTOUCH : Nat := 2 ^ 28
def CPADTOUCH : Nat := 2 ^ 2
def STICKPRESS : Nat := 2 ^ 0
def STICKTILT : Nat := 2 ^ 31

/-! ## Controller snapshot and controller flags

`ControllerSnapshot` embeds the fields of the per-cycle controller
state read by `Mapper.input` (`state` / `old_state` arguments).
`ControllerFlags` embeds the capability bits tested via
`controller.flags & ...`; each tested flag becomes a `Bool` field. -/

structure ControllerSnapshot where
  buttons : Nat
  stick_x : Int
  stick_y : Int
  rstick_x : Int
  rstick_y : Int
  lpad_x : Int
  lpad_y : Int
  rpad_x : Int
  rpad_y : Int
  dpad_x : Int
  dpad_y : Int
  cpad_x : Int
  cpad_y : Int
  ltrig : Nat
  rtrig : Nat
  deriving DecidableEq, Repr

structure ControllerFlags where
  separate_stick : Bool
  is_deck : Bool
  has_rstick : Bool
  has_cpad : Bool
  deriving DecidableEq, Repr

/-- Which profile entry a dispatch goes to (`STICK`, `RSTICK`, `LEFT`,
`RIGHT`, `DPAD`, `CPAD` constants of `scc.constants`). -/
inductive Side where
  | stick
  | rstick
  | left
  | right
  | dpad
  | cpad
  deriving DecidableEq, Repr

/-- One dispatch from `Mapper.input` into the bound profile. -/
inductive Dispatch where
  /-- `self.profile.buttons[x].button_press(self)` -/
  | buttonPress (x : Nat)
  /-- `self.profile.buttons[x].button_release(self)` -/
  | buttonRelease (x : Nat)
  /-- `self.profile.stick.whole` / `self.profile.rstick.whole` -/
  | stickWhole (which : Side) (x y : Int)
  /-- `self.profile.pads[side].whole(self, x, y, side)` -/
  | padWhole (side : Side) (x y : Int)
  /-- `self.profile.triggers[side].trigger(self, cur, old)` -/
  | trigEvent (side : Side) (cur old : Nat)
  /-- `self.profile.gyro.gyro(self, ...)` -/
  | gyroEvent
  deriving DecidableEq, Repr

/-! ## Mapper state

The `Mapper` attributes read and written by `input` that survive
between cycles: the remembered (already normalized) button bitmask,
the `lpad_touched` flag, and the three force-event flags
(`FE_STICK`, `FE_PAD`, `FE_TRIGGER` membership in `force_event`). -/

structure MapperState where
  buttons : Nat
  lpad_touched : Bool
  feStick : Bool
  fePad : Bool
  feTrigger : Bool
  deriving DecidableEq, Repr

/-- Hardware-quirk normalization at the top of `Mapper.input`:
`if self.buttons & SCButtons.LPAD and not self.buttons & (SCButtons.LPADTOUCH | STICKTILT):
    self.buttons = (self.buttons & ~SCButtons.LPAD) | SCButtons.STICKPRESS` -/
def normalizeButtons (b : Nat) : Nat :=
  if b &&& LPAD ≠ 0 ∧ b &&& (LPADTOUCH ||| STICKTILT) = 0 then
    (Nat.ldiff b LPAD) ||| STICKPRESS
  else
    b

/-- `xor = self.old_buttons ^ self.buttons; btn_add = xor & self.buttons` -/
def btnAdd (old new : Nat) : Nat := (old ^^^ new) &&& new

/-- `xor = self.old_buttons ^ self.buttons; btn_rem = xor & self.old_buttons` -/
def btnRem (old new : Nat) : Nat := (old ^^^ new) &&& old

/-- The button dispatch loop of `Mapper.input`:
`if btn_add or btn_rem: for x in self.profile.buttons:
   if x & btn_add: press elif x & btn_rem: release`.
`entries` is the list of button bitmasks keying `profile.buttons`. -/
def buttonEvents (entries : List Nat) (bAdd bRem : Nat) : List Dispatch :=
  if bAdd ≠ 0 ∨ bRem ≠ 0 then
    entries.filterMap (fun x =>
      if x &&& bAdd ≠ 0 then some (Dispatch.buttonPress x)
      else if x &&& bRem ≠ 0 then some (Dispatch.buttonRelease x)
      else none)
  else []

/-! ## The per-cycle dispatch sections of `Mapper.input`

Each section of the `try:` block of `Mapper.input` (mapper.py lines
420–498) becomes one function producing the list of dispatches that
section performs.  `fe*` arguments are the force-event flags captured
by `fe = self.force_event` before the set is cleared. -/

/-- "Check sticks" section: `profile.stick.whole` dispatches. -/
def stickEvents (flags : ControllerFlags) (feStick : Bool) (buttons : Nat)
    (old new : ControllerSnapshot) : List Dispatch :=
  if flags.separate_stick then
    if feStick ∨ old.stick_x ≠ new.stick_x ∨ old.stick_y ≠ new.stick_y then
      [.stickWhole .stick new.stick_x new.stick_y]
    else []
  else if buttons &&& LPADTOUCH = 0 then
    if feStick ∨ old.lpad_x ≠ new.lpad_x ∨ old.lpad_y ≠ new.lpad_y then
      [.stickWhole .stick new.lpad_x new.lpad_y]
    else []
  else []

/-- Steam-Deck second stick: `profile.rstick.whole` dispatch. -/
def rstickEvents (flags : ControllerFlags) (feStick : Bool)
    (old new : ControllerSnapshot) : List Dispatch :=
  if flags.is_deck then
    if feStick ∨ old.rstick_x ≠ new.rstick_x ∨ old.rstick_y ≠ new.rstick_y then
      [.stickWhole .rstick new.rstick_x new.rstick_y]
    else []
  else []

/-- "Check gyro" section: unconditional once per cycle when enabled. -/
def gyroEvents (gyroEnabled : Bool) : List Dispatch :=
  if gyroEnabled then [.gyroEvent] else []

/-- "Check triggers" section; `hasL`/`hasR` model
`LEFT in self.profile.triggers` / `RIGHT in self.profile.triggers`. -/
def triggerEvents (hasL hasR : Bool) (feTrigger : Bool)
    (old new : ControllerSnapshot) : List Dispatch :=
  (if feTrigger ∨ new.ltrig ≠ old.ltrig then
    if hasL then [.trigEvent .left new.ltrig old.ltrig] else []
  else []) ++
  (if feTrigger ∨ new.rtrig ≠ old.rtrig then
    if hasR then [.trigEvent .right new.rtrig old.rtrig] else []
  else [])

/-- "Check pads — RPAD" section. -/
def rpadEvents (flags : ControllerFlags) (fePad : Bool) (buttons bRem : Nat)
    (old new : ControllerSnapshot) : List Dispatch :=
  if flags.is_deck then
    if fePad ∨ old.rpad_x ≠ new.rpad_x ∨ old.rpad_y ≠ new.rpad_y then
      [.padWhole .right new.rpad_x new.rpad_y]
    else []
  else if flags.has_rstick then
    if fePad ∨ old.rpad_x ≠ new.rpad_x ∨ old.rpad_y ≠ new.rpad_y then
      [.padWhole .right new.rpad_x new.rpad_y]
    else []
  else if fePad ∨ buttons &&& RPADTOUCH ≠ 0 ∨ RPADTOUCH &&& bRem ≠ 0 then
    [.padWhole .right new.rpad_x new.rpad_y]
  else []

/-- "Check pads — DPAD" section (Steam Deck only). -/
def dpadEvents (flags : ControllerFlags) (fePad : Bool)
    (old new : ControllerSnapshot) : List Dispatch :=
  if flags.is_deck then
    if fePad ∨ old.dpad_x ≠ new.dpad_x ∨ old.dpad_y ≠ new.dpad_y then
      [.padWhole .dpad new.dpad_x new.dpad_y]
    else []
  else []

/-- "Check pads — LPAD" section.  Returns the dispatches together with
the new value of `self.lpad_touched`.  In the touched branch the code
also synthesizes a stick-recenter when the shared `STICKTILT` bit of
the *old snapshot's* buttons clears. -/
def lpadStep (flags : ControllerFlags) (fePad : Bool) (lpad_touched : Bool)
    (buttons : Nat) (old new : ControllerSnapshot) : List Dispatch × Bool :=
  if flags.separate_stick then
    (if fePad ∨ old.lpad_x ≠ new.lpad_x ∨ old.lpad_y ≠ new.lpad_y then
      [.padWhole .left new.lpad_x new.lpad_y]
    else [], lpad_touched)
  else if buttons &&& LPADTOUCH ≠ 0 then
    ([.padWhole .left new.lpad_x new.lpad_y] ++
      (if old.buttons &&& STICKTILT ≠ 0 ∧ buttons &&& STICKTILT = 0 then
        [.stickWhole .stick 0 0]
      else []), true)
  else if buttons &&& STICKTILT = 0 then
    if lpad_touched then ([.padWhole .left 0 0], false)
    else ([], lpad_touched)
  else ([], lpad_touched)

/-- "CPAD (touchpad on DS4 controller)" section. -/
def cpadEvents (flags : ControllerFlags) (fePad : Bool)
    (old_buttons buttons : Nat) (old new : ControllerSnapshot) : List Dispatch :=
  if flags.has_cpad then
    if fePad ∨ old.cpad_x ≠ new.cpad_x ∨ old.cpad_y ≠ new.cpad_y ∨
        (old_buttons &&& CPADTOUCH ≠ 0 ∧ buttons &&& CPADTOUCH = 0) then
      if buttons &&& CPADTOUCH ≠ 0 then
        [.padWhole .cpad new.cpad_x new.cpad_y]
      else if old_buttons &&& CPADTOUCH ≠ 0 then
        [.padWhole .cpad 0 0]
      else []
    else []
  else []

/-- Shape of the bound profile as far as `Mapper.input` consults it:
the bitmask keys of `profile.buttons` and which sides are present in
`profile.triggers`. -/
structure ProfileShape where
  buttons : List Nat
  hasLeftTrigger : Bool
  hasRightTrigger : Bool
  deriving DecidableEq, Repr

/-- One full `Mapper.input(controller, old_state, state)` cycle:
stores the new (normalized) buttons, runs the dispatch sections in
program order, clears `force_event`, and updates `lpad_touched`.
Returns the new mapper state and the dispatches in dispatch order. -/
def mapperInput (flags : ControllerFlags) (gyroEnabled : Bool)
    (profile : ProfileShape) (m : MapperState)
    (old_state state : ControllerSnapshot) : MapperState × List Dispatch :=
  let old_buttons := m.buttons
  let buttons := normalizeButtons state.buttons
  let bAdd := btnAdd old_buttons buttons
  let bRem := btnRem old_buttons buttons
  let lp := lpadStep flags m.fePad m.lpad_touched buttons old_state state
  (⟨buttons, lp.2, false, false, false⟩,
    buttonEvents profile.buttons bAdd bRem ++
    stickEvents flags m.feStick buttons old_state state ++
    rstickEvents flags m.feStick old_state state ++
    gyroEvents gyroEnabled ++
    triggerEvents profile.hasLeftTrigger profile.hasRightTrigger m.feTrigger old_state state ++
    rpadEvents flags m.fePad buttons bRem old_state state ++
    dpadEvents flags m.fePad old_state state ++
    lp.1 ++
    cpadEvents flags m.fePad old_buttons buttons old_state state)

/-! ## Basic bit lemmas about the button diff -/

theorem btnAdd_testBit (old new i : Nat) :
    (btnAdd old new).testBit i = (new.testBit i && !(old.testBit i)) := by
  unfold btnAdd
  rw [Nat.testBit_land, Nat.testBit_xor]
  cases old.testBit i <;> cases new.testBit i <;> rfl

theorem btnRem_testBit (old new i : Nat) :
    (btnRem old new).testBit i = (old.testBit i && !(new.testBit i)) := by
  unfold btnRem
  rw [Nat.testBit_land, Nat.testBit_xor]
  cases old.testBit i <;> cases new.testBit i <;> rfl

theorem two_pow_land_ne_zero_iff (i a : Nat) :
    2 ^ i &&& a ≠ 0 ↔ a.testBit i = true := by
  rw [Nat.two_pow_and]
  cases h : a.testBit i <;> simp [Nat.pow_eq_zero]

theorem two_pow_land_eq_zero_iff (i a : Nat) :
    2 ^ i &&& a = 0 ↔ a.testBit i = false := by
  rw [Nat.two_pow_and]
  cases h : a.testBit i <;> simp [Nat.pow_eq_zero]

theorem buttonPress_mem (entries : List Nat) (a r x : Nat) :
    Dispatch.buttonPress x ∈ buttonEvents entries a r ↔
      x ∈ entries ∧ x &&& a ≠ 0 := by
  unfold buttonEvents
  by_cases h : a ≠ 0 ∨ r ≠ 0
  · simp only [if_pos h, List.mem_filterMap]
    constructor
    · rintro ⟨y, hy, heq⟩
      split_ifs at heq with h1 h2 <;> simp_all
    · rintro ⟨hx, hne⟩
      exact ⟨x, hx, by simp [hne]⟩
  · push_neg at h
    obtain ⟨rfl, rfl⟩ := h
    simp [Nat.and_zero]

theorem buttonRelease_mem (entries : List Nat) (a r x : Nat) :
    Dispatch.buttonRelease x ∈ buttonEvents entries a r ↔
      x ∈ entries ∧ x &&& a = 0 ∧ x &&& r ≠ 0 := by
  unfold buttonEvents
  by_cases h : a ≠ 0 ∨ r ≠ 0
  · simp only [if_pos h, List.mem_filterMap]
    constructor
    · rintro ⟨y, hy, heq⟩
      split_ifs at heq with h1 h2 <;> simp_all
    · rintro ⟨hx, hz, hne⟩
      exact ⟨x, hx, by simp [hz, hne]⟩
  · push_neg at h
    obtain ⟨rfl, rfl⟩ := h
    simp [Nat.and_zero]

/-- C1: for every pair of button bitmasks (previous `prev`, current raw
`raw`) passed through one `Mapper.input` cycle, after the
hardware-quirk normalization the mapper dispatches `button_press` to
the profile entry bound to each bit set in `cur & ~prev` and
`button_release` to the entry bound to each bit set in `prev & ~cur`
(where `cur` is the normalized current bitmask), and no single bit
causes both a press and a release dispatch in the same cycle. -/
theorem C1_button_edge_dispatch (entries : List Nat) (prev raw i : Nat) :
    (Dispatch.buttonPress (2 ^ i) ∈
        buttonEvents entries (btnAdd prev (normalizeButtons raw))
          (btnRem prev (normalizeButtons raw)) ↔
      2 ^ i ∈ entries ∧ (normalizeButtons raw).testBit i = true ∧
        prev.testBit i = false) ∧
    (Dispatch.buttonRelease (2 ^ i) ∈
        buttonEvents entries (btnAdd prev (normalizeButtons raw))
          (btnRem prev (normalizeButtons raw)) ↔
      2 ^ i ∈ entries ∧ prev.testBit i = true ∧
        (normalizeButtons raw).testBit i = false) ∧
    ¬(Dispatch.buttonPress (2 ^ i) ∈
        buttonEvents entries (btnAdd prev (normalizeButtons raw))
          (btnRem prev (normalizeButtons raw)) ∧
      Dispatch.buttonRelease (2 ^ i) ∈
        buttonEvents entries (btnAdd prev (normalizeButtons raw))
          (btnRem prev (normalizeButtons raw))) := by
  set cur := normalizeButtons raw with hcur
  have hadd : ∀ j, (btnAdd prev cur).testBit j =
      (cur.testBit j && !(prev.testBit j)) := fun j => btnAdd_testBit prev cur j
  have hrem : ∀ j, (btnRem prev cur).testBit j =
      (prev.testBit j && !(cur.testBit j)) := fun j => btnRem_testBit prev cur j
  have hp : Dispatch.buttonPress (2 ^ i) ∈
      buttonEvents entries (btnAdd prev cur) (btnRem prev cur) ↔
      2 ^ i ∈ entries ∧ cur.testBit i = true ∧ prev.testBit i = false := by
    rw [buttonPress_mem, two_pow_land_ne_zero_iff, hadd i]
    cases cur.testBit i <;> cases prev.testBit i <;> simp
  have hr : Dispatch.buttonRelease (2 ^ i) ∈
      buttonEvents entries (btnAdd prev cur) (btnRem prev cur) ↔
      2 ^ i ∈ entries ∧ prev.testBit i = true ∧ cur.testBit i = false := by
    rw [buttonRelease_mem, two_pow_land_eq_zero_iff, two_pow_land_ne_zero_iff,
      hadd i, hrem i]
    cases hb : prev.testBit i <;> cases hc : cur.testBit i <;> simp
  refine ⟨hp, hr, ?_⟩
  rintro ⟨h1, h2⟩
  rw [hp] at h1
  rw [hr] at h2
  exact absurd h1.2.1 (by simp [h2.2.2])

/-! ## Idempotence of a repeated cycle (stick/pad/trigger dispatches) -/

/-- Is this a dispatch to a stick, pad or trigger handler of the
profile (gyro and plain button dispatches excluded)? -/
def isSPT : Dispatch → Bool
  | .stickWhole _ _ _ => true
  | .padWhole _ _ _ => true
  | .trigEvent _ _ _ => true
  | _ => false

theorem btnAdd_self (b : Nat) : btnAdd b b = 0 := by
  simp [btnAdd, Nat.xor_self]

theorem btnRem_self (b : Nat) : btnRem b b = 0 := by
  simp [btnRem, Nat.xor_self]

theorem buttonEvents_zero (entries : List Nat) :
    buttonEvents entries 0 0 = [] := by
  simp [buttonEvents]

theorem stickEvents_unchanged (flags : ControllerFlags) (b : Nat)
    (S : ControllerSnapshot) : stickEvents flags false b S S = [] := by
  unfold stickEvents
  split_ifs <;> simp_all

theorem rstickEvents_unchanged (flags : ControllerFlags)
    (S : ControllerSnapshot) : rstickEvents flags false S S = [] := by
  unfold rstickEvents
  split_ifs <;> simp_all

theorem triggerEvents_unchanged (hasL hasR : Bool) (S : ControllerSnapshot) :
    triggerEvents hasL hasR false S S = [] := by
  unfold triggerEvents
  split_ifs <;> simp_all

theorem rpadEvents_unchanged (flags : ControllerFlags) (b : Nat)
    (S : ControllerSnapshot) (hR : b &&& RPADTOUCH = 0) :
    rpadEvents flags false b 0 S S = [] := by
  unfold rpadEvents
  split_ifs <;> simp_all [Nat.and_zero]

theorem dpadEvents_unchanged (flags : ControllerFlags)
    (S : ControllerSnapshot) : dpadEvents flags false S S = [] := by
  unfold dpadEvents
  split_ifs <;> simp_all

theorem cpadEvents_unchanged (flags : ControllerFlags) (b : Nat)
    (S : ControllerSnapshot) : cpadEvents flags false b b S S = [] := by
  unfold cpadEvents
  split_ifs <;> simp_all

/-- After a cycle on a sharing-axes controller with the left touch and
the stick-tilt bit clear, `lpad_touched` has settled to `false`. -/
theorem lpadStep_touched_false (flags : ControllerFlags) (fe t : Bool)
    (b : Nat) (old S : ControllerSnapshot)
    (hsep : flags.separate_stick = false)
    (hL : b &&& LPADTOUCH = 0) (hT : b &&& STICKTILT = 0) :
    (lpadStep flags fe t b old S).2 = false := by
  unfold lpadStep
  split_ifs <;> simp_all

theorem lpadStep_quiet (flags : ControllerFlags) (t : Bool) (b : Nat)
    (S : ControllerSnapshot) (hL : b &&& LPADTOUCH = 0)
    (h : t = false ∨ b &&& STICKTILT ≠ 0) :
    (lpadStep flags false t b S S).1 = [] := by
  unfold lpadStep
  rcases h with h | h <;> split_ifs <;> simp_all

theorem normalizeButtons_testBit (b i : Nat) (h0 : i ≠ 0) (h25 : i ≠ 25) :
    (normalizeButtons b).testBit i = b.testBit i := by
  unfold normalizeButtons
  split_ifs with h
  · rw [Nat.testBit_lor, Nat.testBit_ldiff, LPAD, STICKPRESS,
      Nat.testBit_two_pow_of_ne (by omega), Nat.testBit_two_pow_of_ne (by omega)]
    simp
  · rfl

theorem normalizeButtons_land_pow (b k : Nat) (h0 : k ≠ 0) (h25 : k ≠ 25) :
    normalizeButtons b &&& 2 ^ k = b &&& 2 ^ k := by
  rw [Nat.and_two_pow, Nat.and_two_pow, normalizeButtons_testBit b k h0 h25]

theorem lpadStep_repeat (flags : ControllerFlags) (fe t : Bool) (b : Nat)
    (old S : ControllerSnapshot) (hL : b &&& LPADTOUCH = 0) :
    (lpadStep flags false ((lpadStep flags fe t b old S).2) b S S).1 = [] := by
  by_cases hsep : flags.separate_stick = true
  · unfold lpadStep
    simp [hsep]
  · have hsep' : flags.separate_stick = false := by simpa using hsep
    by_cases hT : b &&& STICKTILT = 0
    · rw [lpadStep_touched_false flags fe t b old S hsep' hL hT]
      exact lpadStep_quiet flags false b S hL (Or.inl rfl)
    · exact lpadStep_quiet flags _ b S hL (Or.inr hT)

theorem filter_isSPT_gyro (g : Bool) : (gyroEvents g).filter isSPT = [] := by
  cases g <;> simp [gyroEvents, isSPT]

/-- C2 (amended): calling `Mapper.input` a second time with the same
snapshot `S` and the same buttons as the immediately preceding call,
with no force-event flags set, produces zero dispatches to any stick,
pad, or trigger handler of the profile (gyro excluded), **provided the
left-pad and right-pad touch bits are clear in the buttons** — a
touched pad is level-dispatched every cycle on controllers whose pads
share axes, so the unamended claim fails there. -/
theorem C2_repeat_cycle_no_spt_dispatch (flags : ControllerFlags)
    (gyro : Bool) (profile : ProfileShape) (m0 : MapperState)
    (old S : ControllerSnapshot)
    (hL : S.buttons &&& LPADTOUCH = 0) (hR : S.buttons &&& RPADTOUCH = 0) :
    ((mapperInput flags gyro profile
        (mapperInput flags gyro profile m0 old S).1 S S).2.filter isSPT) = [] := by
  have hL' : normalizeButtons S.buttons &&& LPADTOUCH = 0 := by
    rw [show LPADTOUCH = 2 ^ 27 from rfl] at hL ⊢
    rw [normalizeButtons_land_pow _ 27 (by norm_num) (by norm_num)]
    exact hL
  have hR' : normalizeButtons S.buttons &&& RPADTOUCH = 0 := by
    rw [show RPADTOUCH = 2 ^ 28 from rfl] at hR ⊢
    rw [normalizeButtons_land_pow _ 28 (by norm_num) (by norm_num)]
    exact hR
  simp only [mapperInput, btnAdd_self, btnRem_self, buttonEvents_zero,
    stickEvents_unchanged, rstickEvents_unchanged, triggerEvents_unchanged,
    dpadEvents_unchanged, cpadEvents_unchanged,
    rpadEvents_unchanged flags (normalizeButtons S.buttons) S hR',
    lpadStep_repeat flags m0.fePad m0.lpad_touched (normalizeButtons S.buttons)
      old S hL',
    List.filter_append, filter_isSPT_gyro, List.nil_append, List.append_nil,
    List.filter_nil]

/-- Witness for `C2_repeat_cycle_no_spt_dispatch` at a concrete input:
a Steam-Deck-like controller holding button `A` (bit 15) with pads
untouched; the repeated cycle performs no stick/pad/trigger dispatch. -/
theorem C2_repeat_cycle_no_spt_dispatch_witness :
    ((2 ^ 15 : Nat) &&& LPADTOUCH = 0 ∧ (2 ^ 15 : Nat) &&& RPADTOUCH = 0) ∧
    ((mapperInput ⟨true, true, true, false⟩ true ⟨[2 ^ 15, 2 ^ 14], true, true⟩
        (mapperInput ⟨true, true, true, false⟩ true ⟨[2 ^ 15, 2 ^ 14], true, true⟩
          ⟨2 ^ 14, true, true, true, true⟩
          ⟨0, 1, 2, 3, 4, 5, 6, 7, 8, 9, 10, 11, 12, 13, 14⟩
          ⟨2 ^ 15, 3, 4, 0, 0, 5, 6, 0, 0, 0, 0, 0, 0, 10, 0⟩).1
        ⟨2 ^ 15, 3, 4, 0, 0, 5, 6, 0, 0, 0, 0, 0, 0, 10, 0⟩
        ⟨2 ^ 15, 3, 4, 0, 0, 5, 6, 0, 0, 0, 0, 0, 0, 10, 0⟩).2.filter isSPT) = [] :=
  ⟨⟨by decide, by decide⟩,
    C2_repeat_cycle_no_spt_dispatch ⟨true, true, true, false⟩ true
      ⟨[2 ^ 15, 2 ^ 14], true, true⟩ ⟨2 ^ 14, true, true, true, true⟩
      ⟨0, 1, 2, 3, 4, 5, 6, 7, 8, 9, 10, 11, 12, 13, 14⟩
      ⟨2 ^ 15, 3, 4, 0, 0, 5, 6, 0, 0, 0, 0, 0, 0, 10, 0⟩
      (by decide) (by decide)⟩

/-- Counterexample to C2 as stated: on a controller with no capability
flags, holding the right-pad touch bit (`RPADTOUCH = 2^28`) across two
identical cycles, the second `Mapper.input` cycle still dispatches
`pads[RIGHT].whole(mapper, 0, 0, RIGHT)` — the right pad is
level-dispatched while touched, so the dispatch count is not zero. -/
theorem C2_counterexample :
    ((mapperInput ⟨false, false, false, false⟩ false ⟨[], false, false⟩
        (mapperInput ⟨false, false, false, false⟩ false ⟨[], false, false⟩
          ⟨0, false, false, false, false⟩
          ⟨2 ^ 28, 0, 0, 0, 0, 0, 0, 0, 0, 0, 0, 0, 0, 0, 0⟩
          ⟨2 ^ 28, 0, 0, 0, 0, 0, 0, 0, 0, 0, 0, 0, 0, 0, 0⟩).1
        ⟨2 ^ 28, 0, 0, 0, 0, 0, 0, 0, 0, 0, 0, 0, 0, 0, 0⟩
        ⟨2 ^ 28, 0, 0, 0, 0, 0, 0, 0, 0, 0, 0, 0, 0, 0, 0⟩).2.filter isSPT)
      = [.padWhole .right 0 0] ∧
    ((mapperInput ⟨false, false, false, false⟩ false ⟨[], false, false⟩
        (mapperInput ⟨false, false, false, false⟩ false ⟨[], false, false⟩
          ⟨0, false, false, false, false⟩
          ⟨2 ^ 28, 0, 0, 0, 0, 0, 0, 0, 0, 0, 0, 0, 0, 0, 0⟩
          ⟨2 ^ 28, 0, 0, 0, 0, 0, 0, 0, 0, 0, 0, 0, 0, 0, 0⟩).1
        ⟨2 ^ 28, 0, 0, 0, 0, 0, 0, 0, 0, 0, 0, 0, 0, 0, 0⟩
        ⟨2 ^ 28, 0, 0, 0, 0, 0, 0, 0, 0, 0, 0, 0, 0, 0, 0⟩).2.filter isSPT)
      ≠ [] := by
  constructor <;> decide

/-! ## The left-pad touch-release edge -/

/-- Is this dispatch exactly `pads[LEFT].whole(mapper, 0, 0, LEFT)`? -/
def isLeftPadZeroDispatch (d : Dispatch) : Bool :=
  decide (d = Dispatch.padWhole Side.left 0 0)

theorem no_lpz_stickEvents (flags : ControllerFlags) (fe : Bool) (b : Nat)
    (old S : ControllerSnapshot) :
    (stickEvents flags fe b old S).filter isLeftPadZeroDispatch = [] := by
  unfold stickEvents
  split_ifs <;> rfl

theorem no_lpz_rstickEvents (flags : ControllerFlags) (fe : Bool)
    (old S : ControllerSnapshot) :
    (rstickEvents flags fe old S).filter isLeftPadZeroDispatch = [] := by
  unfold rstickEvents
  split_ifs <;> rfl

theorem no_lpz_gyroEvents (g : Bool) :
    (gyroEvents g).filter isLeftPadZeroDispatch = [] := by
  cases g <;> rfl

theorem no_lpz_triggerEvents (hasL hasR fe : Bool)
    (old S : ControllerSnapshot) :
    (triggerEvents hasL hasR fe old S).filter isLeftPadZeroDispatch = [] := by
  unfold triggerEvents
  rw [List.filter_append]
  split_ifs <;> rfl

theorem no_lpz_rpadEvents (flags : ControllerFlags) (fe : Bool) (b r : Nat)
    (old S : ControllerSnapshot) :
    (rpadEvents flags fe b r old S).filter isLeftPadZeroDispatch = [] := by
  unfold rpadEvents
  split_ifs <;> rfl

theorem no_lpz_dpadEvents (flags : ControllerFlags) (fe : Bool)
    (old S : ControllerSnapshot) :
    (dpadEvents flags fe old S).filter isLeftPadZeroDispatch = [] := by
  unfold dpadEvents
  split_ifs <;> rfl

theorem no_lpz_cpadEvents (flags : ControllerFlags) (fe : Bool) (ob b : Nat)
    (old S : ControllerSnapshot) :
    (cpadEvents flags fe ob b old S).filter isLeftPadZeroDispatch = [] := by
  unfold cpadEvents
  split_ifs <;> rfl

theorem no_lpz_buttonEvents (entries : List Nat) (a r : Nat) :
    (buttonEvents entries a r).filter isLeftPadZeroDispatch = [] := by
  rw [List.filter_eq_nil_iff]
  intro d hd
  unfold buttonEvents at hd
  split_ifs at hd
  · rw [List.mem_filterMap] at hd
    obtain ⟨x, -, hx⟩ := hd
    split_ifs at hx
    · injection hx with hx
      subst hx
      simp [isLeftPadZeroDispatch]
    · injection hx with hx
      subst hx
      simp [isLeftPadZeroDispatch]
  · simp at hd

/-- The touch-release edge of the shared-axes left pad: with the left
touch bit and the stick-tilt bit clear and the pad previously marked
touched, the section dispatches the single zero/zero event and clears
the mark. -/
theorem lpadStep_release (flags : ControllerFlags) (fe : Bool) (b : Nat)
    (old S : ControllerSnapshot) (hsep : flags.separate_stick = false)
    (hL : b &&& LPADTOUCH = 0) (hT : b &&& STICKTILT = 0) :
    lpadStep flags fe true b old S = ([.padWhole .left 0 0], false) := by
  unfold lpadStep
  split_ifs <;> simp_all

/-- With the pad unmarked and the left touch bit clear, the left-pad
section of a shared-axes controller dispatches nothing and keeps the
mark cleared. -/
theorem lpadStep_untouched (flags : ControllerFlags) (fe : Bool) (b : Nat)
    (old S : ControllerSnapshot) (hsep : flags.separate_stick = false)
    (hL : b &&& LPADTOUCH = 0) :
    lpadStep flags fe false b old S = ([], false) := by
  unfold lpadStep
  split_ifs <;> simp_all

theorem normalizeButtons_lpadtouch_clear (b : Nat) (h : b &&& LPADTOUCH = 0) :
    normalizeButtons b &&& LPADTOUCH = 0 := by
  rw [show LPADTOUCH = 2 ^ 27 from rfl] at h ⊢
  rw [normalizeButtons_land_pow _ 27 (by norm_num) (by norm_num)]
  exact h

theorem normalizeButtons_sticktilt_clear (b : Nat) (h : b &&& STICKTILT = 0) :
    normalizeButtons b &&& STICKTILT = 0 := by
  rw [show STICKTILT = 2 ^ 31 from rfl] at h ⊢
  rw [normalizeButtons_land_pow _ 31 (by norm_num) (by norm_num)]
  exact h

/-- C8: in a cycle where the left-pad touch bit is clear while the
stick-tilt bit is clear (controller without a separate stick, left
pad previously marked touched), the mapper dispatches
`pads[LEFT].whole(mapper, 0, 0, LEFT)` exactly once, clears the
touch mark, and no further zero/zero left-pad dispatch occurs in any
subsequent cycle while touch stays released. -/
theorem C8_lpad_release_edge (flags : ControllerFlags) (gyro : Bool)
    (profile : ProfileShape) (m : MapperState) (old S : ControllerSnapshot)
    (hsep : flags.separate_stick = false)
    (ht : m.lpad_touched = true)
    (hL : S.buttons &&& LPADTOUCH = 0)
    (hT : S.buttons &&& STICKTILT = 0) :
    ((mapperInput flags gyro profile m old S).2.filter isLeftPadZeroDispatch
      = [.padWhole .left 0 0]) ∧
    (mapperInput flags gyro profile m old S).1.lpad_touched = false ∧
    (∀ (gyro' : Bool) (profile' : ProfileShape) (m' : MapperState)
        (old' S' : ControllerSnapshot),
      m'.lpad_touched = false → S'.buttons &&& LPADTOUCH = 0 →
      (mapperInput flags gyro' profile' m' old' S').2.filter
          isLeftPadZeroDispatch = [] ∧
      (mapperInput flags gyro' profile' m' old' S').1.lpad_touched = false) := by
  have hL' := normalizeButtons_lpadtouch_clear S.buttons hL
  have hT' := normalizeButtons_sticktilt_clear S.buttons hT
  have hrel := lpadStep_release flags m.fePad (normalizeButtons S.buttons)
    old S hsep hL' hT'
  refine ⟨?_, ?_, ?_⟩
  · simp only [mapperInput, List.filter_append, no_lpz_buttonEvents,
      no_lpz_stickEvents, no_lpz_rstickEvents, no_lpz_gyroEvents,
      no_lpz_triggerEvents, no_lpz_rpadEvents, no_lpz_dpadEvents,
      no_lpz_cpadEvents, ht, hrel, List.nil_append, List.append_nil]
    rfl
  · simp only [mapperInput, ht, hrel]
  · intro gyro' profile' m' old' S' ht' hL2
    have hq := lpadStep_untouched flags m'.fePad (normalizeButtons S'.buttons)
      old' S' hsep (normalizeButtons_lpadtouch_clear S'.buttons hL2)
    constructor
    · simp only [mapperInput, List.filter_append, no_lpz_buttonEvents,
        no_lpz_stickEvents, no_lpz_rstickEvents, no_lpz_gyroEvents,
        no_lpz_triggerEvents, no_lpz_rpadEvents, no_lpz_dpadEvents,
        no_lpz_cpadEvents, ht', hq, List.nil_append, List.append_nil]
    · simp only [mapperInput, ht', hq]

/-- Witness for `C8_lpad_release_edge`: a shared-axes controller whose
left pad was touched releases touch with the stick untilted; the cycle
emits the single zero/zero left-pad dispatch. -/
theorem C8_lpad_release_edge_witness :
    ((⟨false, false, false, false⟩ : ControllerFlags).separate_stick = false ∧
      (⟨2 ^ 27, true, false, false, false⟩ : MapperState).lpad_touched = true ∧
      (2 ^ 11 : Nat) &&& LPADTOUCH = 0 ∧ (2 ^ 11 : Nat) &&& STICKTILT = 0) ∧
    ((mapperInput ⟨false, false, false, false⟩ false ⟨[2 ^ 11], false, false⟩
        ⟨2 ^ 27, true, false, false, false⟩
        ⟨2 ^ 27, 0, 0, 0, 0, 20, 30, 0, 0, 0, 0, 0, 0, 0, 0⟩
        ⟨2 ^ 11, 0, 0, 0, 0, 0, 0, 0, 0, 0, 0, 0, 0, 0, 0⟩).2.filter
          isLeftPadZeroDispatch = [.padWhole .left 0 0]) :=
  ⟨⟨rfl, rfl, by decide, by decide⟩,
    (C8_lpad_release_edge ⟨false, false, false, false⟩ false ⟨[2 ^ 11], false, false⟩
      ⟨2 ^ 27, true, false, false, false⟩
      ⟨2 ^ 27, 0, 0, 0, 0, 20, 30, 0, 0, 0, 0, 0, 0, 0, 0⟩
      ⟨2 ^ 11, 0, 0, 0, 0, 0, 0, 0, 0, 0, 0, 0, 0, 0, 0⟩
      rfl rfl (by decide) (by decide)).1⟩

/-! ## Haptic feedback (`Mapper.send_feedback` / `Mapper.generate_feedback`)

`HapticPos` and `HapticData` come from `scc.constants` /
`scc.controller`, which are not among the sources under verification.
Modelled from the spec: `HapticPos` is the side selector with the
special value BOTH, `feedbacks` is the pair of haptic-feedback slots
(the mapper indexes `self.feedbacks[hapticdata.get_position()]` with
RIGHT = 0 and LEFT = 1), and `with_position` copies the haptic data
with a new position. -/

inductive HapticPos where
  | right
  | left
  | both
  deriving DecidableEq, Repr

structure HapticData where
  position : HapticPos
  amplitude : Nat
  period : Nat
  count : Nat
  deriving DecidableEq, Repr

def with_position (h : HapticData) (p : HapticPos) : HapticData :=
  { h with position := p }

/-- `Mapper.send_feedback(hapticdata)`: BOTH is split into two
single-side requests, one per slot; a single-side request lands in
the slot indexed by its position value (RIGHT = 0, LEFT = 1). -/
def send_feedback (fb : Option HapticData × Option HapticData)
    (h : HapticData) : Option HapticData × Option HapticData :=
  match h.position with
  | .both => (some (with_position h .left), some (with_position h .right))
  | .right => (some h, fb.2)
  | .left => (fb.1, some h)

/-- `Mapper.generate_feedback()`: when a controller is set, each
populated slot is forwarded to `controller.feedback` (slot 0 first)
and reset to empty. -/
def generate_feedback (hasController : Bool)
    (fb : Option HapticData × Option HapticData) :
    (Option HapticData × Option HapticData) × List HapticData :=
  if hasController then
    ((none, none), fb.1.toList ++ fb.2.toList)
  else (fb, [])

/-- C9: a haptic request with position BOTH and amplitude A populates
exactly two feedback slots, one with position LEFT and one with
position RIGHT, both carrying amplitude A; one `generate_feedback`
call on a mapper with a controller forwards each populated slot to the
controller and resets both slots to empty. -/
theorem C9_feedback_both_split (fb : Option HapticData × Option HapticData)
    (h : HapticData) (hpos : h.position = .both) :
    (send_feedback fb h).1 = some (with_position h .left) ∧
    (send_feedback fb h).2 = some (with_position h .right) ∧
    (with_position h .left).position = .left ∧
    (with_position h .right).position = .right ∧
    (with_position h .left).amplitude = h.amplitude ∧
    (with_position h .right).amplitude = h.amplitude ∧
    generate_feedback true (send_feedback fb h) =
      ((none, none), [with_position h .left, with_position h .right]) := by
  simp [send_feedback, generate_feedback, with_position, hpos]

/-- Witness for `C9_feedback_both_split` at a concrete BOTH request. -/
theorem C9_feedback_both_split_witness :
    (⟨HapticPos.both, 42, 100, 3⟩ : HapticData).position = .both ∧
    generate_feedback true
        (send_feedback (none, some ⟨HapticPos.left, 1, 2, 3⟩)
          ⟨HapticPos.both, 42, 100, 3⟩) =
      ((none, none),
        [with_position ⟨HapticPos.both, 42, 100, 3⟩ .left,
          with_position ⟨HapticPos.both, 42, 100, 3⟩ .right]) :=
  ⟨rfl,
    (C9_feedback_both_split (none, some ⟨HapticPos.left, 1, 2, 3⟩)
      ⟨HapticPos.both, 42, 100, 3⟩ rfl).2.2.2.2.2.2⟩

/-! ## Device monitor (`scc/device_monitor.py`)

`known_devs` maps a bus syspath to `(vendor, product, removal_cb)`;
here the removal callback is elided and the value is the
`(vendor, product)` pair (`None` for the "input" subsystem, hence
`Option Nat`).  The Python dict is embedded as an association list in
which a key occurs at most once on the paths exercised (both callers
of `_on_new_syspath` guard on `syspath not in self.known_devs`). -/

abbrev VendorProduct := Option Nat × Option Nat
abbrev KnownDevs := List (String × VendorProduct)

def kdLookup (k : KnownDevs) (p : String) : Option VendorProduct :=
  (k.find? (fun e => e.1 == p)).map (·.2)

/-- Outcome of an arrival callback from the monitor's point of view.
`_on_new_syspath` tests only `cb(...) is None`, so the embedding keeps
the full distinction among: raised an exception, returned `None`,
returned `False` (the falsy non-`None` value
`USBDriver.handle_new_device` produces for a rejected device), and
returned any other (truthy) value. -/
inductive CbResult where
  | raised
  | returnedNone
  | returnedFalse
  | returnedTrue
  deriving DecidableEq, Repr

/-- `DeviceMonitor._on_new_syspath`.  `resolved = none` models the
`OSError` early return of `get_vendor_product`; `cbRegistered` models
`self.dev_added_cbs.get(key)` being non-`None`.  The callback receives
the `known_devs` map as it stands when it is invoked (the entry is
registered first).  The entry is deleted only when the callback raises
(the exception is logged and absorbed — the function always returns a
map, never propagates) or when its return value `is None`; any other
return value, `False` included, keeps the entry. -/
def onNewSyspath (known : KnownDevs) (syspath : String)
    (resolved : Option VendorProduct) (cbRegistered : Bool)
    (cb : KnownDevs → CbResult) : KnownDevs :=
  match resolved with
  | none => known
  | some vp =>
    if cbRegistered then
      let known1 : KnownDevs := (syspath, vp) :: known
      match cb known1 with
      | .raised => known1.eraseP (fun e => e.1 == syspath)
      | .returnedNone => known1.eraseP (fun e => e.1 == syspath)
      | .returnedFalse => known1
      | .returnedTrue => known1
    else known

/-- The value `USBDriver.handle_new_device` returns on its rejection
path (usb.py lines 286-288): the registered driver callback produced a
falsy handled-device, the device is logged as ignored and closed, and
the function returns `False` — not `None`. -/
def handleNewDeviceRejectedResult : CbResult := .returnedFalse

/-- Counterexample to C3 as stated: `_on_new_syspath` removes the
entry only on `cb(...) is None` (device_monitor.py line 97), but the
cited arrival callback `USBDriver.handle_new_device` returns the falsy
`False` for a rejected device, and on that value the bus path **stays**
in `known_devs` instead of being removed. -/
theorem C3_counterexample :
    kdLookup [] "/sys/devices/usb1" = none ∧
    kdLookup
        (onNewSyspath [] "/sys/devices/usb1" (some (some 10462, some 4418))
          true (fun _ => handleNewDeviceRejectedResult))
        "/sys/devices/usb1" = some (some 10462, some 4418) := by
  constructor <;> decide

/-- C3 (amended): for every accepted arrival, `_on_new_syspath` first
inserts the bus path into `known_devs` and then invokes the arrival
callback (the map the callback observes already holds the entry); the
bus path is removed again exactly when the callback raises an
exception — which is logged and never propagated (the embedding is a
total function) — or returns the null value `None`.  Any other
handled-device value, the falsy `False` included, leaves the bus path
registered. -/
theorem C3_arrival_register_then_invoke (known : KnownDevs) (syspath : String)
    (vp : VendorProduct) (cb : KnownDevs → CbResult)
    (habs : kdLookup known syspath = none) :
    kdLookup ((syspath, vp) :: known) syspath = some vp ∧
    (cb ((syspath, vp) :: known) = .raised ∨
        cb ((syspath, vp) :: known) = .returnedNone →
      onNewSyspath known syspath (some vp) true cb = known ∧
      kdLookup (onNewSyspath known syspath (some vp) true cb) syspath = none) ∧
    (cb ((syspath, vp) :: known) ≠ .raised →
      cb ((syspath, vp) :: known) ≠ .returnedNone →
      onNewSyspath known syspath (some vp) true cb = (syspath, vp) :: known) := by
  refine ⟨?_, ?_, ?_⟩
  · simp [kdLookup]
  · intro hr
    have herase : ((syspath, vp) :: known).eraseP (fun e => e.1 == syspath)
        = known := List.eraseP_cons_of_pos (by simp)
    rcases hr with hr | hr <;> simp [onNewSyspath, hr, herase, habs]
  · intro h1 h2
    cases hcb : cb ((syspath, vp) :: known) with
    | raised => exact absurd hcb h1
    | returnedNone => exact absurd hcb h2
    | returnedFalse => simp [onNewSyspath, hcb]
    | returnedTrue => simp [onNewSyspath, hcb]

/-- Witness for `C3_arrival_register_then_invoke`: a fresh monitor and
a callback that returns `None`; the path is present in the map the
callback sees and absent afterwards. -/
theorem C3_arrival_register_then_invoke_witness :
    kdLookup [] "/sys/devices/usb1" = none ∧
    onNewSyspath [] "/sys/devices/usb1" (some (some 10462, some 4418)) true
        (fun _ => .returnedNone) = [] :=
  ⟨rfl,
    ((C3_arrival_register_then_invoke [] "/sys/devices/usb1"
      (some 10462, some 4418) (fun _ => .returnedNone) rfl).2.1
      (Or.inr rfl)).1⟩

/-! ## `DeviceMonitor.add_callback` -/

abbrev DevKey := String × Nat × Nat

structure MonitorCbs where
  dev_added_cbs : List (DevKey × Nat)
  dev_removed_cbs : List (DevKey × Nat)
  deriving DecidableEq, Repr

/-- `DeviceMonitor.add_callback(subsystem, vendor_id, product_id,
added_cb, removed_cb)`.  The callbacks are identified by opaque
numbers.  The leading `assert key not in self.dev_added_cbs` raising
`AssertionError` on a duplicate key is modelled by the `Bool` flag:
`false` means the assertion fired, and it fires before either map is
written. -/
def add_callback (st : MonitorCbs) (key : DevKey)
    (added_cb removed_cb : Nat) : Bool × MonitorCbs :=
  if (st.dev_added_cbs.find? (fun e => e.1 == key)).isSome then
    (false, st)
  else
    (true, ⟨(key, added_cb) :: st.dev_added_cbs,
      (key, removed_cb) :: st.dev_removed_cbs⟩)

/-- C4: after `add_callback` has been called with a key, a second
`add_callback` call with the same key fails immediately with the
precondition violation and leaves both callback maps exactly as the
first call left them; the pair stored by the first call stays in
place. -/
theorem C4_duplicate_registration_fails (st : MonitorCbs) (key : DevKey)
    (a r a2 r2 : Nat)
    (habs : st.dev_added_cbs.find? (fun e => e.1 == key) = none) :
    (add_callback (add_callback st key a r).2 key a2 r2).1 = false ∧
    (add_callback (add_callback st key a r).2 key a2 r2).2 =
      (add_callback st key a r).2 ∧
    ((add_callback (add_callback st key a r).2 key a2 r2).2.dev_added_cbs.find?
        (fun e => e.1 == key)).map (·.2) = some a ∧
    ((add_callback (add_callback st key a r).2 key a2 r2).2.dev_removed_cbs.find?
        (fun e => e.1 == key)).map (·.2) = some r := by
  have h1 : add_callback st key a r =
      (true, ⟨(key, a) :: st.dev_added_cbs, (key, r) :: st.dev_removed_cbs⟩) := by
    simp [add_callback, habs]
  rw [h1]
  simp [add_callback]

/-- Witness for `C4_duplicate_registration_fails`: registering the USB
key (0x28de, 0x1102) twice on a fresh monitor. -/
theorem C4_duplicate_registration_fails_witness :
    (([] : List (DevKey × Nat)).find?
        (fun e => e.1 == ("usb", 10462, 4354)) = none) ∧
    (add_callback (add_callback ⟨[], []⟩ ("usb", 10462, 4354) 1 2).2
        ("usb", 10462, 4354) 3 4).1 = false :=
  ⟨rfl,
    (C4_duplicate_registration_fails ⟨[], []⟩ ("usb", 10462, 4354) 1 2 3 4
      rfl).1⟩

/-! ## USB control-message queue (`USBDevice` in `scc/drivers/usb.py`)

A queued control message is the 6-tuple pushed by `send_control`:
`(0x21, 0x09, 0x0300, index, data + zeros, 0)`. -/

structure ControlMsg where
  request_type : Nat
  request : Nat
  value : Nat
  index : Nat
  data : List Nat
  timeout : Nat
  deriving DecidableEq, Repr

/-- The zero padding `data + b'\x00' * (64 - len(data))`. -/
def pad64 (data : List Nat) : List Nat :=
  data ++ List.replicate (64 - data.length) 0

/-- The message `send_control(index, data)` builds. -/
def msgOf (index : Nat) (data : List Nat) : ControlMsg :=
  ⟨0x21, 0x09, 0x0300, index, pad64 data, 0⟩

/-- `USBDevice.send_control(index, data)`: `self._cmsg.insert(0, ...)`
prepends the new message to the queue. -/
def send_control (cmsg : List ControlMsg) (index : Nat) (data : List Nat) :
    List ControlMsg :=
  msgOf index data :: cmsg

/-- The overwrite predicate: `x_index == index and x_data[0:3] == data[0:3]`
(first 3 bytes are PacketType, size and ConfigType). -/
def overwriteMatch (index : Nat) (data : List Nat) (x : ControlMsg) : Bool :=
  x.index == index && x.data.take 3 == data.take 3

/-- `USBDevice.overwrite_control(index, data)`: removes the first
already-scheduled control for the same index and 3-byte prefix, then
schedules the new one via `send_control`. -/
def overwrite_control (cmsg : List ControlMsg) (index : Nat) (data : List Nat) :
    List ControlMsg :=
  send_control (cmsg.eraseP (overwriteMatch index data)) index data

/-- The control-message drain loop of `USBDevice.flush`:
`while len(self._cmsg): msg = self._cmsg.pop(); self.handle.controlWrite(*msg)`.
`list.pop()` removes the *last* element, so the writes happen in
reverse queue order. -/
def flush_writes (cmsg : List ControlMsg) : List ControlMsg :=
  cmsg.reverse

/-- One scheduling call on the control queue. -/
inductive CtrlOp where
  | send (index : Nat) (data : List Nat)
  | overwrite (index : Nat) (data : List Nat)
  deriving DecidableEq, Repr

def applyOp (cmsg : List ControlMsg) : CtrlOp → List ControlMsg
  | .send i d => send_control cmsg i d
  | .overwrite i d => overwrite_control cmsg i d

/-- A whole sequence of `send_control`/`overwrite_control` calls. -/
def applyOps (cmsg : List ControlMsg) (ops : List CtrlOp) : List ControlMsg :=
  ops.foldl applyOp cmsg

/-- Ghost-instrumented queue: each entry carries the (0-based) index
of the scheduling call that pushed it, so "scheduling time" is
explicit.  The operations act exactly as `applyOp` does on the
message components. -/
def applyOpT (t : Nat) (q : List (Nat × ControlMsg)) : CtrlOp → List (Nat × ControlMsg)
  | .send i d => (t, msgOf i d) :: q
  | .overwrite i d =>
      (t, msgOf i d) :: q.eraseP (fun x => overwriteMatch i d x.2)

def applyOpsT : Nat → List (Nat × ControlMsg) → List CtrlOp → List (Nat × ControlMsg)
  | _, q, [] => q
  | t, q, op :: ops => applyOpsT (t + 1) (applyOpT t q op) ops

theorem applyOpT_map_snd (t : Nat) (q : List (Nat × ControlMsg))
    (op : CtrlOp) :
    (applyOpT t q op).map Prod.snd = applyOp (q.map Prod.snd) op := by
  cases op with
  | send i d => rfl
  | overwrite i d =>
    simp only [applyOpT, applyOp, overwrite_control, send_control,
      List.map_cons, List.eraseP_map]
    rfl

theorem applyOpsT_map_snd (ops : List CtrlOp) :
    ∀ (t : Nat) (q : List (Nat × ControlMsg)),
    (applyOpsT t q ops).map Prod.snd = applyOps (q.map Prod.snd) ops := by
  induction ops with
  | nil => intro t q; rfl
  | cons op ops ih =>
    intro t q
    show (applyOpsT (t + 1) (applyOpT t q op) ops).map Prod.snd = _
    rw [ih, applyOpT_map_snd]
    rfl

theorem applyOpsT_stamps (ops : List CtrlOp) :
    ∀ (t : Nat) (q : List (Nat × ControlMsg)),
    q.Pairwise (fun a b => b.1 < a.1) → (∀ e ∈ q, e.1 < t) →
    (applyOpsT t q ops).Pairwise (fun a b => b.1 < a.1) := by
  induction ops with
  | nil => intro t q hdec _; exact hdec
  | cons op ops ih =>
    intro t q hdec hbound
    show (applyOpsT (t + 1) (applyOpT t q op) ops).Pairwise _
    refine ih (t + 1) _ ?_ ?_
    · cases op with
      | send i d =>
        exact List.pairwise_cons.mpr ⟨fun e he => hbound e he, hdec⟩
      | overwrite i d =>
        refine List.pairwise_cons.mpr ⟨?_, ?_⟩
        · intro e he
          exact hbound e ((List.eraseP_sublist q).mem he)
        · exact hdec.sublist (List.eraseP_sublist q)
    · cases op with
      | send i d =>
        intro e he
        rcases List.mem_cons.mp he with rfl | he
        · exact Nat.lt_succ_self t
        · exact Nat.lt_succ_of_lt (hbound e he)
      | overwrite i d =>
        intro e he
        rcases List.mem_cons.mp he with rfl | he
        · exact Nat.lt_succ_self t
        · exact Nat.lt_succ_of_lt (hbound e ((List.eraseP_sublist q).mem he))

/-- C5 (amended): for every sequence of `send_control` /
`overwrite_control` calls on a `USBDevice` followed by one `flush`,
`flush` writes the queued control messages in **FIFO** order with
respect to scheduling time: the *earliest* scheduled surviving message
is written first (not the most recent — `send_control` prepends and
`flush` pops from the tail).  The instrumented run carries each
message's scheduling time; the written stamps are strictly increasing
and the messages written are exactly those of the real queue. -/
theorem C5_flush_writes_fifo (ops : List CtrlOp) :
    ((applyOpsT 0 [] ops).reverse.map Prod.fst).Pairwise (· < ·) ∧
    (applyOpsT 0 [] ops).reverse.map Prod.snd =
      flush_writes (applyOps [] ops) := by
  constructor
  · rw [List.map_reverse, List.pairwise_reverse]
    have h := applyOpsT_stamps ops 0 [] (by simp) (by simp)
    exact (List.pairwise_map.mpr (h.imp (fun hab => hab)))
  · rw [List.map_reverse, applyOpsT_map_snd]
    rfl

/-- Counterexample to C5 as stated (LIFO): schedule two control
messages for index 3 — first data `[1,1,1]`, then data `[2,2,2]` (no
overwrite: different prefixes); the first message `flush` writes is
the *older* one, not the most recently scheduled one. -/
theorem C5_counterexample :
    (flush_writes (applyOps []
        [.send 3 [1, 1, 1], .send 3 [2, 2, 2]])).head? =
      some (msgOf 3 [1, 1, 1]) ∧
    msgOf 3 [1, 1, 1] ≠ msgOf 3 [2, 2, 2] := by
  constructor <;> decide

/-- C6 (amended): `overwrite_control(index, d1)` followed by
`overwrite_control(index, d2)` with `d1`'s first three (padded) bytes
agreeing with `d2`'s, **starting from a queue holding no message for
that index**, leaves exactly one queued control message for that index
— the padded `d2` — the older entry having been removed before the
newer one was pushed.  (On a queue already holding a message for the
index with a different 3-byte prefix the unamended universal claim is
false.) -/
theorem C6_overwrite_supersedes (cmsg : List ControlMsg) (index : Nat)
    (d1 d2 : List Nat)
    (hnone : ∀ m ∈ cmsg, m.index ≠ index)
    (hpre : (pad64 d1).take 3 = d2.take 3) :
    (overwrite_control (overwrite_control cmsg index d1) index d2).filter
        (fun m => m.index == index) = [msgOf index d2] := by
  have hfalse : ∀ m ∈ cmsg, ¬(overwriteMatch index d1 m = true) := by
    intro m hm
    simp [overwriteMatch, hnone m hm]
  have h1 : overwrite_control cmsg index d1 = msgOf index d1 :: cmsg := by
    unfold overwrite_control send_control
    rw [List.eraseP_of_forall_not hfalse]
  have hhead : overwriteMatch index d2 (msgOf index d1) = true := by
    simp [overwriteMatch, msgOf, hpre]
  have h2 : overwrite_control (msgOf index d1 :: cmsg) index d2 =
      msgOf index d2 :: cmsg := by
    unfold overwrite_control send_control
    rw [List.eraseP_cons_of_pos hhead]
  rw [h1, h2, List.filter_cons_of_pos (by simp [msgOf]), List.filter_eq_nil_iff.mpr]
  intro m hm
  simp [hnone m hm]

/-- Witness for `C6_overwrite_supersedes`: two overwrites for index 3
with a shared `[1, 2, 3]` prefix on an empty queue leave exactly the
second message queued. -/
theorem C6_overwrite_supersedes_witness :
    ((∀ m ∈ ([] : List ControlMsg), m.index ≠ 3) ∧
      (pad64 [1, 2, 3]).take 3 = [1, 2, 3, 7].take 3) ∧
    (overwrite_control (overwrite_control [] 3 [1, 2, 3]) 3
        [1, 2, 3, 7]).filter (fun m => m.index == 3) = [msgOf 3 [1, 2, 3, 7]] :=
  ⟨⟨by simp, by decide⟩,
    C6_overwrite_supersedes [] 3 [1, 2, 3] [1, 2, 3, 7] (by simp) (by decide)⟩

/-- Counterexample to C6 as stated for *every* `USBDevice`: on a
device whose queue already holds a message for index 3 with a
different 3-byte prefix (`[9, 9, 9]`), the two overwrites (whose data
agree on the first three bytes, as the claim requires) leave **two**
queued messages for index 3, not one. -/
theorem C6_counterexample :
    (pad64 [1, 2, 3, 5]).take 3 = [1, 2, 3, 6].take 3 ∧
    ((overwrite_control (overwrite_control [msgOf 3 [9, 9, 9]] 3 [1, 2, 3, 5])
        3 [1, 2, 3, 6]).filter (fun m => m.index == 3)).length = 2 ∧
    ((overwrite_control (overwrite_control [msgOf 3 [9, 9, 9]] 3 [1, 2, 3, 5])
        3 [1, 2, 3, 6]).filter (fun m => m.index == 3)).length ≠ 1 := by
  refine ⟨by decide, by decide, by decide⟩

/-! ## The asynchronous interrupt-read wrapper
(`USBDevice.set_input_interrupt`) -/

/-- libusb transfer completion status (`usb1.TRANSFER_*`). -/
inductive TransferStatus where
  | completed
  | error
  | timedOut
  | cancelled
  | stall
  | noDevice
  | overflow
  deriving DecidableEq, Repr

/-- The `callback_wrapper` closure installed by `set_input_interrupt`:
given the expected `size`, the transfer's completion status and actual
length, and whether the user callback raises, it returns
`(callback invoked?, transfer resubmitted?)`.  A bad status or a short
or long read returns early — no callback, no resubmission; otherwise
the callback runs and the `finally:` block resubmits regardless of a
callback exception. -/
def callback_wrapper (size : Nat) (status : TransferStatus)
    (actualLength : Nat) (cbRaises : Bool) : Bool × Bool :=
  if status ≠ .completed ∨ actualLength ≠ size then
    (false, false)
  else
    (true, true)

/-- C10: a completion whose status is not TRANSFER_COMPLETED or whose
actual length differs from the expected size invokes no user callback
and performs no resubmission (the repeating read is not re-armed);
only an exact-length completed transfer leads to a callback invocation
followed by resubmission — and then the resubmission happens even if
the callback raises. -/
theorem C10_interrupt_wrapper (size : Nat) (status : TransferStatus)
    (actualLength : Nat) (cbRaises : Bool) :
    ((status ≠ .completed ∨ actualLength ≠ size) →
      callback_wrapper size status actualLength cbRaises = (false, false)) ∧
    (status = .completed → actualLength = size →
      callback_wrapper size status actualLength cbRaises = (true, true)) := by
  constructor
  · intro h
    simp [callback_wrapper, h]
  · intro h1 h2
    simp [callback_wrapper, h1, h2]

/-- Witness for `C10_interrupt_wrapper`: a stalled 64-byte read does
nothing; an exact 64-byte completed read invokes the callback and
resubmits even though the callback raises. -/
theorem C10_interrupt_wrapper_witness :
    (TransferStatus.stall ≠ TransferStatus.completed ∨ (64 : Nat) ≠ 64) ∧
    callback_wrapper 64 .stall 64 false = (false, false) ∧
    callback_wrapper 64 .completed 64 true = (true, true) :=
  ⟨Or.inl (by decide),
    (C10_interrupt_wrapper 64 .stall 64 false).1 (Or.inl (by decide)),
    (C10_interrupt_wrapper 64 .completed 64 true).2 rfl rfl⟩

/-! ## USB claim-busy retry queue (`USBDriver`)

`time.time()` values are embedded as rationals. -/

structure RetryEntry where
  syspath : String
  vendor : Nat
  product : Nat
  deriving DecidableEq, Repr

/-- The retry-relevant state of `USBDriver`: `_retry_devices` and
`_retry_devices_timer` (`__init__` sets them to `[]` and `0`). -/
structure RetryState where
  retry_devices : List RetryEntry
  retry_devices_timer : ℚ
  deriving DecidableEq, Repr

def usbDriverInit : RetryState := ⟨[], 0⟩

/-- An externally visible event for the retry queue: either
`handle_new_device` fails claim-busy and appends a retry entry
(`self._retry_devices.append(...)`), or one `mainloop` pass reaches
the retry block (a "tick") at the given wall-clock time. -/
inductive RetryEv where
  | queue (e : RetryEntry)
  | tick
  deriving DecidableEq, Repr

/-- The retry block at the end of `USBDriver.mainloop`:
`if len(self._retry_devices):`
`  if time.time() > self._retry_devices_timer:`
`    self._retry_devices_timer = time.time() + 5.0`
`    lst, self._retry_devices = self._retry_devices, []`
`    for syspath, (vendor, product) in lst: self.handle_new_device(...)`.
Returns the new state and, when the window is open, the replayed
batch together with its firing time. -/
def retryStep (now : ℚ) (st : RetryState) :
    RetryEv → RetryState × Option (ℚ × List RetryEntry)
  | .queue e => (⟨st.retry_devices ++ [e], st.retry_devices_timer⟩, none)
  | .tick =>
    if st.retry_devices ≠ [] ∧ now > st.retry_devices_timer then
      (⟨[], now + 5⟩, some (now, st.retry_devices))
    else (st, none)

/-- Run a timestamped event trace, collecting the replayed batches in
order. -/
def retryExec (st : RetryState) :
    List (ℚ × RetryEv) → RetryState × List (ℚ × List RetryEntry)
  | [] => (st, [])
  | (t, ev) :: rest =>
    let s1 := retryStep t st ev
    let r := retryExec s1.1 rest
    (r.1, s1.2.toList ++ r.2)

/-- The entries queued along a trace, in order. -/
def queuedOf (trace : List (ℚ × RetryEv)) : List RetryEntry :=
  trace.filterMap (fun te =>
    match te.2 with
    | .queue e => some e
    | .tick => none)

theorem retryExec_spacing (trace : List (ℚ × RetryEv)) :
    ∀ st : RetryState,
    (retryExec st trace).2.Chain' (fun a b => b.1 > a.1 + 5) ∧
    (∀ b ∈ (retryExec st trace).2.head?, b.1 > st.retry_devices_timer) := by
  induction trace with
  | nil => intro st; exact ⟨List.chain'_nil, by simp [retryExec]⟩
  | cons te rest ih =>
    intro st
    obtain ⟨t, ev⟩ := te
    cases ev with
    | queue e =>
      have h := ih ⟨st.retry_devices ++ [e], st.retry_devices_timer⟩
      exact ⟨h.1, h.2⟩
    | tick =>
      by_cases hfire : st.retry_devices ≠ [] ∧ t > st.retry_devices_timer
      · have hstep : retryExec st ((t, RetryEv.tick) :: rest) =
            ((retryExec ⟨[], t + 5⟩ rest).1,
              (t, st.retry_devices) :: (retryExec ⟨[], t + 5⟩ rest).2) := by
          simp [retryExec, retryStep, hfire]
        rw [hstep]
        have h := ih ⟨[], t + 5⟩
        refine ⟨List.chain'_cons'.mpr ⟨?_, h.1⟩, ?_⟩
        · intro y hy
          exact h.2 y hy
        · intro b hb
          simp only [List.head?_cons, Option.mem_def, Option.some.injEq] at hb
          subst hb
          exact hfire.2
      · have hstep : retryExec st ((t, RetryEv.tick) :: rest) =
            retryExec st rest := by
          simp [retryExec, retryStep, hfire]
        rw [hstep]
        exact ih st

theorem retryExec_conservation (trace : List (ℚ × RetryEv)) :
    ∀ st : RetryState,
    ((retryExec st trace).2.map (·.2)).flatten ++
        (retryExec st trace).1.retry_devices =
      st.retry_devices ++ queuedOf trace := by
  induction trace with
  | nil => intro st; simp [retryExec, queuedOf]
  | cons te rest ih =>
    intro st
    obtain ⟨t, ev⟩ := te
    cases ev with
    | queue e =>
      have h := ih ⟨st.retry_devices ++ [e], st.retry_devices_timer⟩
      have hq : queuedOf ((t, RetryEv.queue e) :: rest) = e :: queuedOf rest := by
        simp [queuedOf]
      rw [show retryExec st ((t, RetryEv.queue e) :: rest) =
          retryExec ⟨st.retry_devices ++ [e], st.retry_devices_timer⟩ rest from rfl,
        hq, h]
      simp
    | tick =>
      have hq : queuedOf ((t, RetryEv.tick) :: rest) = queuedOf rest := by
        simp [queuedOf]
      by_cases hfire : st.retry_devices ≠ [] ∧ t > st.retry_devices_timer
      · have hstep : retryExec st ((t, RetryEv.tick) :: rest) =
            ((retryExec ⟨[], t + 5⟩ rest).1,
              (t, st.retry_devices) :: (retryExec ⟨[], t + 5⟩ rest).2) := by
          simp [retryExec, retryStep, hfire]
        rw [hstep, hq]
        have h := ih ⟨[], t + 5⟩
        simp only [List.map_cons, List.flatten_cons, List.append_assoc]
        rw [h]
        simp
      · have hstep : retryExec st ((t, RetryEv.tick) :: rest) =
            retryExec st rest := by
          simp [retryExec, retryStep, hfire]
        rw [hstep, hq]
        exact ih st

/-- C7 (amended): from the driver's initial state, along any
timestamped trace of claim-busy queueings and mainloop ticks, retries
are replayed in whole batches — consecutive batches fire strictly more
than 5 seconds apart, and the batches partition the queued entries:
every queued entry is replayed exactly once in exactly one batch (or
is still queued at the end), in queueing order.  (The unamended claim
that an entry is never retried earlier than 5 seconds after its
failure is false: with the timer at its initial value 0 — no batch
pending cool-down — the very next mainloop tick replays the entry
immediately.) -/
theorem C7_retry_batches (trace : List (ℚ × RetryEv)) :
    (retryExec usbDriverInit trace).2.Chain' (fun a b => b.1 > a.1 + 5) ∧
    ((retryExec usbDriverInit trace).2.map (·.2)).flatten ++
        (retryExec usbDriverInit trace).1.retry_devices = queuedOf trace :=
  ⟨(retryExec_spacing trace usbDriverInit).1,
    retryExec_conservation trace usbDriverInit⟩

/-- Counterexample to C7 as stated: an entry queued at time 0 (its
first claim-busy failure) is replayed by the mainloop tick at time 1 —
earlier than 5 seconds after the failure — because the retry timer
starts expired. -/
theorem C7_counterexample :
    (retryExec usbDriverInit
        [(0, .queue ⟨"/sys/devices/usb1", 10462, 4418⟩), (1, .tick)]).2 =
      [(1, [⟨"/sys/devices/usb1", 10462, 4418⟩])] ∧
    (1 : ℚ) < 0 + 5 := by
  constructor
  · decide
  · norm_num

end SCC
